import Mathlib

set_option linter.unusedVariables false

/-!
Verification of the Query CRUD API layer (dune_client/api/query.py).

The operations are shallowly embedded as pure Lean functions.  The HTTP
transport is a parameter: a server is a step function
from a server state and a request to a JSON reply and a new server state.
Each operation returns its Python result (an Except, since the Python code
can raise), the ordered list of HTTP requests it issued, and the final
server state.  JSON values carry no floats because no behaviour under
study depends on them; JSON numbers are modelled as Int.
-/

/-- JSON values as returned by the transport and sent as payloads. -/
inductive JsonV : Type where
  | null : JsonV
  | bool (b : Bool) : JsonV
  | int (n : Int) : JsonV
  | str (s : String) : JsonV
  | arr (xs : List JsonV) : JsonV
  | obj (fields : List (String × JsonV)) : JsonV

/-- Python exceptions observable from the CRUD layer.  `duneError` is
modelled from the spec: `DuneError` (dune_client/models.py, not under the
sources given) carries the raw response payload, the name of the response
type under construction and the triggering cause. -/
inductive PyErr : Type where
  | keyError (k : String) : PyErr
  | attributeError (obj attr : String) : PyErr
  | valueError (msg : String) : PyErr
  | typeError (msg : String) : PyErr
  | assertionError : PyErr
  | duneError (data : JsonV) (response_class : String) (err : PyErr) : PyErr

inductive HTTPMethod : Type where
  | get : HTTPMethod
  | post : HTTPMethod
  | patch : HTTPMethod
deriving DecidableEq, Repr

/-- One HTTP request as issued by BaseRouter: method, route relative to the
versioned base path, and optional JSON payload. -/
structure HTTPRequest : Type where
  method : HTTPMethod
  route : String
  params : Option JsonV

/-- Python subscript `d[k]` on a parsed-JSON value: KeyError when the key is
absent from a JSON object, TypeError on a non-object. -/
def JsonV.getKey : JsonV → String → Except PyErr JsonV
  | .obj fields, k =>
    match fields.lookup k with
    | some v => .ok v
    | none => .error (.keyError k)
  | _, k => .error (.typeError ("value is not subscriptable by " ++ k))

/-- Decimal digits to a number, most significant first; none on a non-digit. -/
def parseNatDigits : List Char → Nat → Option Nat
  | [], acc => some acc
  | c :: cs, acc =>
    if c.isDigit then parseNatDigits cs (acc * 10 + (c.toNat - 48)) else none

/-- The plain decimal forms accepted by Python `int(str)`: an optional minus
sign followed by at least one digit.  (Python also strips whitespace and
allows underscores; no behaviour under study depends on those forms.) -/
def pyIntOfString (s : String) : Option Int :=
  match s.data with
  | [] => none
  | '-' :: cs =>
    (match cs with
     | [] => none
     | _ => (parseNatDigits cs 0).map (fun n => -(n : Int)))
  | cs => (parseNatDigits cs 0).map (fun n => (n : Int))

/-- Python `int(x)` on a parsed-JSON value: ints pass through, bools coerce,
numeric strings parse, non-numeric strings raise ValueError, other shapes
raise TypeError. -/
def pyInt : JsonV → Except PyErr Int
  | .int n => .ok n
  | .bool b => .ok (if b then 1 else 0)
  | .str s =>
    match pyIntOfString s with
    | some n => .ok n
    | none => .error (.valueError s)
  | _ => .error (.typeError "int() argument")

/-- The translation of `try: ... except KeyError as err: raise
DuneError(data, cls, err)`: a KeyError escaping the try block is wrapped
into a DuneError; every other outcome passes through unchanged. -/
def wrapKeyError {α : Type} (data : JsonV) (cls : String) :
    Except PyErr α → Except PyErr α
  | .error (.keyError k) => .error (.duneError data cls (.keyError k))
  | r => r

/-- Modelled from the spec: `QueryParameter` (dune_client/types.py, not under
the sources given) is a tagged union over text, number, date and enum; each
variant holds a name and a typed value. -/
inductive QueryParameter : Type where
  | text (name : String) (value : String) : QueryParameter
  | number (name : String) (value : Int) : QueryParameter
  | date (name : String) (value : String) : QueryParameter
  | enum (name : String) (value : String) : QueryParameter
deriving DecidableEq, Repr

/-- Modelled from the spec: `QueryParameter.to_dict` serialization "must emit
the correct wire type tag" along with the name and value. -/
def QueryParameter.to_dict : QueryParameter → JsonV
  | .text n v => .obj [("key", .str n), ("type", .str "text"), ("value", .str v)]
  | .number n v => .obj [("key", .str n), ("type", .str "number"), ("value", .int v)]
  | .date n v => .obj [("key", .str n), ("type", .str "date"), ("value", .str v)]
  | .enum n v => .obj [("key", .str n), ("type", .str "enum"), ("value", .str v)]

/-- Modelled from the spec: the metadata flags of a query object. -/
structure QueryMeta : Type where
  is_archived : Bool
  is_private : Bool
deriving DecidableEq, Repr

/-- Modelled from the spec: `DuneQuery` (dune_client/query.py, not under the
sources given) is the full query object: id, name, SQL text and metadata
flags.  Only the fields the CRUD layer reads back are modelled. -/
structure DuneQuery : Type where
  query_id : Int
  name : String
  sql : String
  meta : QueryMeta
deriving DecidableEq, Repr

/-- Modelled from the spec: `DuneQuery.from_dict` deserializes the full query
object returned by the read endpoint and "fails with DuneError on malformed
response". -/
def DuneQuery.from_dict (data : JsonV) : Except PyErr DuneQuery :=
  match data.getKey "query_id", data.getKey "name", data.getKey "query_sql",
      data.getKey "is_archived", data.getKey "is_private" with
  | .ok qv, .ok (.str n), .ok (.str sq), .ok (.bool ar), .ok (.bool pr) =>
    match pyInt qv with
    | .ok qid =>
      .ok { query_id := qid, name := n, sql := sq,
            meta := { is_archived := ar, is_private := pr } }
    | .error e => .error (.duneError data "Query" e)
  | _, _, _, _, _ => .error (.duneError data "Query" (.keyError "query_id"))

/-- `UpdateQueryParams`, the NamedTuple of optional update fields.  Its five
fields are `name`, `query_sql`, `params`, `description`, `tags`; there is in
particular no field named `query_parms`. -/
structure UpdateQueryParams : Type where
  name : Option String := none
  query_sql : Option String := none
  params : Option (List QueryParameter) := none
  description : Option String := none
  tags : Option (List String) := none

/-- The GET request issued by `get_query`. -/
def getReq (query_id : Int) : HTTPRequest :=
  { method := .get, route := "/query/" ++ toString query_id, params := none }

/-- The POST request issued by `archive_query`. -/
def archiveReq (query_id : Int) : HTTPRequest :=
  { method := .post, route := "/query/" ++ toString query_id ++ "/archive",
    params := none }

/-- The POST request issued by `unarchive_query`. -/
def unarchiveReq (query_id : Int) : HTTPRequest :=
  { method := .post, route := "/query/" ++ toString query_id ++ "/unarchive",
    params := none }

/-- The POST request issued by `make_private`. -/
def privateReq (query_id : Int) : HTTPRequest :=
  { method := .post, route := "/query/" ++ toString query_id ++ "/private",
    params := none }

/-- The POST request issued by `make_public`. -/
def unprivateReq (query_id : Int) : HTTPRequest :=
  { method := .post, route := "/query/" ++ toString query_id ++ "/unprivate",
    params := none }

/-- The creation payload built by `create_query`: name, query_sql and
is_private always; parameters only when a parameter list is given. -/
def createPayload (name query_sql : String) (params : Option (List QueryParameter))
    (is_private : Bool) : JsonV :=
  .obj ([("name", .str name), ("query_sql", .str query_sql),
         ("is_private", .bool is_private)] ++
    (match params with
     | some ps => [("parameters", .arr (ps.map QueryParameter.to_dict))]
     | none => []))

/-- The POST request issued by `create_query`. -/
def createReq (name query_sql : String) (params : Option (List QueryParameter))
    (is_private : Bool) : HTTPRequest :=
  { method := .post, route := "/query/",
    params := some (createPayload name query_sql params is_private) }

/-- `QueryAPI.get_query`: GET the query route and deserialize the reply. -/
def get_query {S : Type} (srv : S → HTTPRequest → JsonV × S) (s : S)
    (query_id : Int) : Except PyErr DuneQuery × List HTTPRequest × S :=
  let resp := (srv s (getReq query_id)).1
  let s1 := (srv s (getReq query_id)).2
  (DuneQuery.from_dict resp, [getReq query_id], s1)

/-- `QueryAPI.create_query`: POST the creation payload; inside the try block,
read the query_id key, convert it with int(), and re-read the full object;
a KeyError escaping the block is wrapped into
DuneError(response, CreateQueryResponse, err). -/
def create_query {S : Type} (srv : S → HTTPRequest → JsonV × S) (s : S)
    (name query_sql : String) (params : Option (List QueryParameter))
    (is_private : Bool) : Except PyErr DuneQuery × List HTTPRequest × S :=
  let req := createReq name query_sql params is_private
  let resp := (srv s req).1
  let s1 := (srv s req).2
  let body : Except PyErr DuneQuery × List HTTPRequest × S :=
    match JsonV.getKey resp "query_id" with
    | .error e => (.error e, [], s1)
    | .ok v =>
      match pyInt v with
      | .error e => (.error e, [], s1)
      | .ok qid => get_query srv s1 qid
  (wrapKeyError resp "CreateQueryResponse" body.1, req :: body.2.1, body.2.2)

/-- `QueryAPI.update_query`: defaults a missing params argument to
UpdateQueryParams(); builds the partial-update payload from the name,
description, tags and query_sql fields; the next source line then reads
`params.query_parms`, an attribute the NamedTuple does not define (its
field is named `params`), so the call raises AttributeError here, before
the empty-payload short-circuit and before any HTTP request. -/
def update_query {S : Type} (srv : S → HTTPRequest → JsonV × S) (s : S)
    (query_id : Int) (params : Option UpdateQueryParams) :
    Except PyErr Int × List HTTPRequest × S :=
  let p : UpdateQueryParams :=
    match params with
    | some p => p
    | none => {}
  let parameters : List (String × JsonV) :=
    (match p.name with | some v => [("name", JsonV.str v)] | none => []) ++
    (match p.description with | some v => [("description", JsonV.str v)] | none => []) ++
    (match p.tags with | some v => [("tags", JsonV.arr (v.map JsonV.str))] | none => []) ++
    (match p.query_sql with | some v => [("query_sql", JsonV.str v)] | none => [])
  (.error (.attributeError "UpdateQueryParams" "query_parms"), [], s)

/-- `QueryAPI.archive_query`: POST the archive action; inside the try block,
read the query_id key of the reply, convert it with int(), re-read that
query and return its is_archived flag; a KeyError escaping the block is
wrapped into DuneError(response, ArchiveQueryResponse, err). -/
def archive_query {S : Type} (srv : S → HTTPRequest → JsonV × S) (s : S)
    (query_id : Int) : Except PyErr Bool × List HTTPRequest × S :=
  let resp := (srv s (archiveReq query_id)).1
  let s1 := (srv s (archiveReq query_id)).2
  let body : Except PyErr Bool × List HTTPRequest × S :=
    match JsonV.getKey resp "query_id" with
    | .error e => (.error e, [], s1)
    | .ok v =>
      match pyInt v with
      | .error e => (.error e, [], s1)
      | .ok qid =>
        let g := get_query srv s1 qid
        (match g.1 with
         | .error e => .error e
         | .ok q => .ok q.meta.is_archived, g.2.1, g.2.2)
  (wrapKeyError resp "ArchiveQueryResponse" body.1,
   archiveReq query_id :: body.2.1, body.2.2)

/-- `QueryAPI.unarchive_query`: same shape as `archive_query` with the
unarchive route and UnarchiveQueryResponse as the wrapping class name. -/
def unarchive_query {S : Type} (srv : S → HTTPRequest → JsonV × S) (s : S)
    (query_id : Int) : Except PyErr Bool × List HTTPRequest × S :=
  let resp := (srv s (unarchiveReq query_id)).1
  let s1 := (srv s (unarchiveReq query_id)).2
  let body : Except PyErr Bool × List HTTPRequest × S :=
    match JsonV.getKey resp "query_id" with
    | .error e => (.error e, [], s1)
    | .ok v =>
      match pyInt v with
      | .error e => (.error e, [], s1)
      | .ok qid =>
        let g := get_query srv s1 qid
        (match g.1 with
         | .error e => .error e
         | .ok q => .ok q.meta.is_archived, g.2.1, g.2.2)
  (wrapKeyError resp "UnarchiveQueryResponse" body.1,
   unarchiveReq query_id :: body.2.1, body.2.2)

/-- `QueryAPI.make_private`: POST the private action; inside the try block,
read the query_id key, convert it with int(), re-read that query and assert
its is_private flag (AssertionError when the flag is false); a KeyError
escaping the block is wrapped into
DuneError(response, MakePrivateResponse, err). -/
def make_private {S : Type} (srv : S → HTTPRequest → JsonV × S) (s : S)
    (query_id : Int) : Except PyErr Unit × List HTTPRequest × S :=
  let resp := (srv s (privateReq query_id)).1
  let s1 := (srv s (privateReq query_id)).2
  let body : Except PyErr Unit × List HTTPRequest × S :=
    match JsonV.getKey resp "query_id" with
    | .error e => (.error e, [], s1)
    | .ok v =>
      match pyInt v with
      | .error e => (.error e, [], s1)
      | .ok qid =>
        let g := get_query srv s1 qid
        (match g.1 with
         | .error e => .error e
         | .ok q => if q.meta.is_private then .ok () else .error .assertionError,
         g.2.1, g.2.2)
  (wrapKeyError resp "MakePrivateResponse" body.1,
   privateReq query_id :: body.2.1, body.2.2)

/-- `QueryAPI.make_public`: POST the unprivate action; inside the try block,
read the query_id key, convert it with int(), re-read that query and assert
the negation of its is_private flag; a KeyError escaping the block is
wrapped into DuneError(response, MakePublicResponse, err). -/
def make_public {S : Type} (srv : S → HTTPRequest → JsonV × S) (s : S)
    (query_id : Int) : Except PyErr Unit × List HTTPRequest × S :=
  let resp := (srv s (unprivateReq query_id)).1
  let s1 := (srv s (unprivateReq query_id)).2
  let body : Except PyErr Unit × List HTTPRequest × S :=
    match JsonV.getKey resp "query_id" with
    | .error e => (.error e, [], s1)
    | .ok v =>
      match pyInt v with
      | .error e => (.error e, [], s1)
      | .ok qid =>
        let g := get_query srv s1 qid
        (match g.1 with
         | .error e => .error e
         | .ok q => if q.meta.is_private then .error .assertionError else .ok (),
         g.2.1, g.2.2)
  (wrapKeyError resp "MakePublicResponse" body.1,
   unprivateReq query_id :: body.2.1, body.2.2)

/-!
Concrete server models used to instantiate the theorems: a well-behaved
server owning one query, and two degenerate servers exercising the error
paths.
-/

/-- The mutable state of the demo server's single query: its two metadata
flags. -/
structure DemoState : Type where
  is_archived : Bool
  is_private : Bool
deriving DecidableEq, Repr

/-- The full query object the demo server serves for its query id `i` in
state `s`. -/
def queryJson (i : Int) (s : DemoState) : JsonV :=
  .obj [("query_id", .int i), ("name", .str "q"), ("query_sql", .str "sql"),
        ("is_archived", .bool s.is_archived), ("is_private", .bool s.is_private)]

/-- A server model owning the single query `i` and honoring the CRUD
routes: the archive and unarchive actions set and clear the archived flag,
the private and unprivate actions set and clear the privacy flag, each
echoing the query id; GET on the query route reports the current state. -/
def demoStep (i : Int) (s : DemoState) (r : HTTPRequest) : JsonV × DemoState :=
  if r.method = .get then
    if r.route = "/query/" ++ toString i then (queryJson i s, s)
    else (.obj [("error", .str "not found")], s)
  else
    if r.route = "/query/" ++ toString i ++ "/archive" then
      (.obj [("query_id", .int i)], { s with is_archived := true })
    else if r.route = "/query/" ++ toString i ++ "/unarchive" then
      (.obj [("query_id", .int i)], { s with is_archived := false })
    else if r.route = "/query/" ++ toString i ++ "/private" then
      (.obj [("query_id", .int i)], { s with is_private := true })
    else if r.route = "/query/" ++ toString i ++ "/unprivate" then
      (.obj [("query_id", .int i)], { s with is_private := false })
    else if r.route = "/query/" then
      (.obj [("query_id", .int i)], s)
    else (.obj [("error", .str "not found")], s)

/-- A stateless server that gives the same JSON reply to every request. -/
def constSrv (j : JsonV) : Unit → HTTPRequest → JsonV × Unit :=
  fun u _ => (j, u)

/-- A stateless server that echoes query id 5 on every action and always
reports query 5 as unarchived and public on GET, whatever was requested. -/
def stubbornSrv : Unit → HTTPRequest → JsonV × Unit :=
  fun u r =>
    if r.method = .get then (queryJson 5 { is_archived := false, is_private := false }, u)
    else (.obj [("query_id", .int 5)], u)

/-- Deserializing the demo server's query object recovers the query. -/
theorem from_dict_queryJson (i : Int) (s : DemoState) :
    DuneQuery.from_dict (queryJson i s)
      = .ok { query_id := i, name := "q", sql := "sql",
              meta := { is_archived := s.is_archived, is_private := s.is_private } } := rfl

theorem string_append_left_cancel {a b c : String} (h : a ++ b = a ++ c) : b = c := by
  have hd : a.data ++ b.data = a.data ++ c.data := by
    have hdata := congrArg String.data h
    simpa [String.data_append] using hdata
  exact String.ext (List.append_cancel_left hd)

theorem route_suffix_ne (a : String) {b c : String} (h : b ≠ c) : a ++ b ≠ a ++ c :=
  fun he => h (string_append_left_cancel he)

/-- The demo server's reply to the archive action. -/
theorem demoStep_archive (i : Int) (s : DemoState) :
    demoStep i s (archiveReq i)
      = (.obj [("query_id", .int i)], { s with is_archived := true }) := by
  unfold demoStep archiveReq
  rw [if_neg (by simp), if_pos rfl]

/-- The demo server's reply to the unarchive action. -/
theorem demoStep_unarchive (i : Int) (s : DemoState) :
    demoStep i s (unarchiveReq i)
      = (.obj [("query_id", .int i)], { s with is_archived := false }) := by
  unfold demoStep unarchiveReq
  rw [if_neg (by simp), if_neg (route_suffix_ne _ (by decide)), if_pos rfl]

/-- The demo server's reply to a read of its query. -/
theorem demoStep_get (i : Int) (s : DemoState) :
    demoStep i s (getReq i) = (queryJson i s, s) := by
  unfold demoStep getReq
  rw [if_pos rfl, if_pos rfl]

/-- C1: the claim says update_query with no update fields supplied (params
omitted or all five fields None) performs zero network calls, logs a
warning, and returns the input id unchanged.  The code instead raises
AttributeError before reaching the short-circuit, because it reads
params.query_parms while the NamedTuple field is named params; no request
is made and no id is returned. -/
theorem update_query_no_fields_raises_attribute_error {S : Type}
    (srv : S → HTTPRequest → JsonV × S) (s : S) (i : Int) :
    update_query srv s i none
      = (.error (.attributeError "UpdateQueryParams" "query_parms"), [], s)
    ∧ update_query srv s i (some {})
      = (.error (.attributeError "UpdateQueryParams" "query_parms"), [], s) :=
  ⟨rfl, rfl⟩

/-- C2: the claim says a supplied empty list for tags or parameters reaches
the PATCH payload as an empty array, distinct from omission.  The code never
builds a PATCH request: it raises AttributeError at the params.query_parms
read on every call, here with tags and params both supplied as empty
lists. -/
theorem update_query_empty_lists_raise_attribute_error {S : Type}
    (srv : S → HTTPRequest → JsonV × S) (s : S) :
    update_query srv s 7 (some { tags := some [], params := some [] })
      = (.error (.attributeError "UpdateQueryParams" "query_parms"), [], s) :=
  rfl

/-- C3: the claim says update_query with at least one supplied field issues
exactly one PATCH to the query route and returns the response's query_id as
an integer.  The code issues zero requests and returns no integer: it raises
AttributeError at the params.query_parms read, here with name and query_sql
supplied. -/
theorem update_query_with_fields_raises_attribute_error {S : Type}
    (srv : S → HTTPRequest → JsonV × S) (s : S) :
    update_query srv s 5 (some { name := some "n", query_sql := some "select 1" })
      = (.error (.attributeError "UpdateQueryParams" "query_parms"), [], s) :=
  rfl

/-- C4 counterexample: with an error-payload response lacking the query_id
key and the name field supplied, the claim predicts update_query raises
DuneError(payload, UpdateQueryResponse, KeyError); the code instead raises
AttributeError at the params.query_parms read. -/
theorem update_query_missing_key_not_dune_error :
    (update_query (constSrv (JsonV.obj [("error", JsonV.str "bad")])) () 1
        (some { name := some "n" })).1
      = .error (.attributeError "UpdateQueryParams" "query_parms")
    ∧ (update_query (constSrv (JsonV.obj [("error", JsonV.str "bad")])) () 1
        (some { name := some "n" })).1
      ≠ .error (.duneError (JsonV.obj [("error", JsonV.str "bad")])
          "UpdateQueryResponse" (.keyError "query_id")) :=
  ⟨rfl, by simp [update_query, constSrv]⟩

/-- C4 amended: for create_query, archive_query, unarchive_query,
make_private and make_public (update_query excluded, since it raises
AttributeError before issuing any request), a response lacking the query_id
key makes the call raise DuneError carrying the raw response payload, the
name of the response type under construction and the KeyError. -/
theorem missing_query_id_raises_dune_error {S : Type}
    (srv : S → HTTPRequest → JsonV × S) (s : S) (i : Int)
    (name sql : String) (priv : Bool)
    (h : ∀ s' r, JsonV.getKey (srv s' r).1 "query_id"
      = .error (.keyError "query_id")) :
    (create_query srv s name sql none priv).1
      = .error (.duneError (srv s (createReq name sql none priv)).1
          "CreateQueryResponse" (.keyError "query_id"))
    ∧ (archive_query srv s i).1
      = .error (.duneError (srv s (archiveReq i)).1
          "ArchiveQueryResponse" (.keyError "query_id"))
    ∧ (unarchive_query srv s i).1
      = .error (.duneError (srv s (unarchiveReq i)).1
          "UnarchiveQueryResponse" (.keyError "query_id"))
    ∧ (make_private srv s i).1
      = .error (.duneError (srv s (privateReq i)).1
          "MakePrivateResponse" (.keyError "query_id"))
    ∧ (make_public srv s i).1
      = .error (.duneError (srv s (unprivateReq i)).1
          "MakePublicResponse" (.keyError "query_id")) := by
  refine ⟨?_, ?_, ?_, ?_, ?_⟩ <;>
    simp only [create_query, archive_query, unarchive_query, make_private,
      make_public, h, wrapKeyError]

/-- C4 witness: against a server that always replies with an error payload,
each of the five operations raises the corresponding DuneError. -/
theorem missing_query_id_raises_dune_error_witness :
    (create_query (constSrv (JsonV.obj [("error", JsonV.str "bad")])) ()
        "n" "sql" none false).1
      = .error (.duneError (JsonV.obj [("error", JsonV.str "bad")])
          "CreateQueryResponse" (.keyError "query_id"))
    ∧ (archive_query (constSrv (JsonV.obj [("error", JsonV.str "bad")])) () 3).1
      = .error (.duneError (JsonV.obj [("error", JsonV.str "bad")])
          "ArchiveQueryResponse" (.keyError "query_id"))
    ∧ (unarchive_query (constSrv (JsonV.obj [("error", JsonV.str "bad")])) () 3).1
      = .error (.duneError (JsonV.obj [("error", JsonV.str "bad")])
          "UnarchiveQueryResponse" (.keyError "query_id"))
    ∧ (make_private (constSrv (JsonV.obj [("error", JsonV.str "bad")])) () 3).1
      = .error (.duneError (JsonV.obj [("error", JsonV.str "bad")])
          "MakePrivateResponse" (.keyError "query_id"))
    ∧ (make_public (constSrv (JsonV.obj [("error", JsonV.str "bad")])) () 3).1
      = .error (.duneError (JsonV.obj [("error", JsonV.str "bad")])
          "MakePublicResponse" (.keyError "query_id")) :=
  missing_query_id_raises_dune_error
    (constSrv (JsonV.obj [("error", JsonV.str "bad")])) () 3 "n" "sql" false
    (fun s' r => rfl)

/-- C5: archive_query posts the archive action for the given id, re-fetches
the query named by the response and returns its is_archived flag, in that
order; unarchive_query does the same with the unarchive action. -/
theorem archive_unarchive_post_then_refetch {S : Type}
    (srv : S → HTTPRequest → JsonV × S) (s : S) (i j j2 : Int) (q q2 : DuneQuery)
    (h1 : JsonV.getKey (srv s (archiveReq i)).1 "query_id" = .ok (.int j))
    (h2 : DuneQuery.from_dict (srv (srv s (archiveReq i)).2 (getReq j)).1 = .ok q)
    (h3 : JsonV.getKey (srv s (unarchiveReq i)).1 "query_id" = .ok (.int j2))
    (h4 : DuneQuery.from_dict (srv (srv s (unarchiveReq i)).2 (getReq j2)).1 = .ok q2) :
    (archive_query srv s i).1 = .ok q.meta.is_archived
    ∧ (archive_query srv s i).2.1 = [archiveReq i, getReq j]
    ∧ (unarchive_query srv s i).1 = .ok q2.meta.is_archived
    ∧ (unarchive_query srv s i).2.1 = [unarchiveReq i, getReq j2] := by
  refine ⟨?_, ?_, ?_, ?_⟩ <;>
    simp only [archive_query, unarchive_query, get_query, h1, h2, h3, h4,
      pyInt, wrapKeyError]

/-- C5 witness: against the demo server owning query 5, archive_query posts
the archive action then reads query 5 and returns true, and
unarchive_query posts the unarchive action then reads query 5 and returns
false. -/
theorem archive_unarchive_post_then_refetch_witness :
    (archive_query (demoStep 5) { is_archived := false, is_private := false } 5).1
      = .ok true
    ∧ (archive_query (demoStep 5) { is_archived := false, is_private := false } 5).2.1
      = [archiveReq 5, getReq 5]
    ∧ (unarchive_query (demoStep 5) { is_archived := false, is_private := false } 5).1
      = .ok false
    ∧ (unarchive_query (demoStep 5) { is_archived := false, is_private := false } 5).2.1
      = [unarchiveReq 5, getReq 5] :=
  archive_unarchive_post_then_refetch (demoStep 5)
    { is_archived := false, is_private := false } 5 5 5
    { query_id := 5, name := "q", sql := "sql",
      meta := { is_archived := true, is_private := false } }
    { query_id := 5, name := "q", sql := "sql",
      meta := { is_archived := false, is_private := false } }
    rfl rfl rfl rfl

/-- C6: make_private posts the private action and re-fetches the query named
by the response: it returns None when the re-fetched is_private flag is
true and raises a bare AssertionError (not a DuneError) when it is false;
make_public does the same with the unprivate action and the negated
flag. -/
theorem make_private_public_assert_refetched_flag {S : Type}
    (srv : S → HTTPRequest → JsonV × S) (s : S) (i j j2 : Int) (q q2 : DuneQuery)
    (h1 : JsonV.getKey (srv s (privateReq i)).1 "query_id" = .ok (.int j))
    (h2 : DuneQuery.from_dict (srv (srv s (privateReq i)).2 (getReq j)).1 = .ok q)
    (h3 : JsonV.getKey (srv s (unprivateReq i)).1 "query_id" = .ok (.int j2))
    (h4 : DuneQuery.from_dict (srv (srv s (unprivateReq i)).2 (getReq j2)).1 = .ok q2) :
    (make_private srv s i).1
      = (if q.meta.is_private then .ok () else .error .assertionError)
    ∧ (make_public srv s i).1
      = (if q2.meta.is_private then .error .assertionError else .ok ()) := by
  constructor
  · simp only [make_private, get_query, h1, h2, pyInt]
    cases q.meta.is_private <;> rfl
  · simp only [make_public, get_query, h3, h4, pyInt]
    cases q2.meta.is_private <;> rfl

/-- C6 witness: against the demo server owning query 5, make_private and
make_public both return None; against the stubborn server, whose query
stays public after the private action, make_private raises
AssertionError. -/
theorem make_private_public_assert_refetched_flag_witness :
    (make_private (demoStep 5) { is_archived := false, is_private := false } 5).1
      = .ok ()
    ∧ (make_public (demoStep 5) { is_archived := false, is_private := false } 5).1
      = .ok ()
    ∧ (make_private stubbornSrv () 5).1 = .error .assertionError :=
  ⟨(make_private_public_assert_refetched_flag (demoStep 5)
      { is_archived := false, is_private := false } 5 5 5
      { query_id := 5, name := "q", sql := "sql",
        meta := { is_archived := false, is_private := true } }
      { query_id := 5, name := "q", sql := "sql",
        meta := { is_archived := false, is_private := false } }
      rfl rfl rfl rfl).1,
   (make_private_public_assert_refetched_flag (demoStep 5)
      { is_archived := false, is_private := false } 5 5 5
      { query_id := 5, name := "q", sql := "sql",
        meta := { is_archived := false, is_private := true } }
      { query_id := 5, name := "q", sql := "sql",
        meta := { is_archived := false, is_private := false } }
      rfl rfl rfl rfl).2,
   (make_private_public_assert_refetched_flag stubbornSrv () 5 5 5
      { query_id := 5, name := "q", sql := "sql",
        meta := { is_archived := false, is_private := false } }
      { query_id := 5, name := "q", sql := "sql",
        meta := { is_archived := false, is_private := false } }
      rfl rfl rfl rfl).1⟩

/-- C7: create_query posts the creation payload holding name, query_sql and
is_private, plus parameters exactly when a parameter list is given, then
reads the query named by the response's query_id and returns the full
object obtained from that read. -/
theorem create_query_posts_payload_then_reads {S : Type}
    (srv : S → HTTPRequest → JsonV × S) (s : S) (name sql : String)
    (ps : List QueryParameter) (priv : Bool) (j j2 : Int) (q q2 : DuneQuery)
    (h1 : JsonV.getKey (srv s (createReq name sql none priv)).1 "query_id"
      = .ok (.int j))
    (h2 : DuneQuery.from_dict
      (srv (srv s (createReq name sql none priv)).2 (getReq j)).1 = .ok q)
    (h3 : JsonV.getKey (srv s (createReq name sql (some ps) priv)).1 "query_id"
      = .ok (.int j2))
    (h4 : DuneQuery.from_dict
      (srv (srv s (createReq name sql (some ps) priv)).2 (getReq j2)).1 = .ok q2) :
    (create_query srv s name sql none priv).1 = .ok q
    ∧ (create_query srv s name sql none priv).2.1
      = [createReq name sql none priv, getReq j]
    ∧ (create_query srv s name sql (some ps) priv).1 = .ok q2
    ∧ (create_query srv s name sql (some ps) priv).2.1
      = [createReq name sql (some ps) priv, getReq j2]
    ∧ createReq name sql none priv
      = { method := .post, route := "/query/",
          params := some (.obj [("name", .str name), ("query_sql", .str sql),
            ("is_private", .bool priv)]) }
    ∧ createReq name sql (some ps) priv
      = { method := .post, route := "/query/",
          params := some (.obj [("name", .str name), ("query_sql", .str sql),
            ("is_private", .bool priv),
            ("parameters", .arr (ps.map QueryParameter.to_dict))]) } := by
  refine ⟨?_, ?_, ?_, ?_, rfl, rfl⟩ <;>
    simp only [create_query, get_query, h1, h2, h3, h4, pyInt, wrapKeyError]

/-- C7 witness: against the demo server owning query 5, create_query with
and without a parameter list reads back query 5 and returns it, tracing
the create request then the read. -/
theorem create_query_posts_payload_then_reads_witness :
    (create_query (demoStep 5) { is_archived := false, is_private := false }
        "n" "select 1" none false).1
      = .ok { query_id := 5, name := "q", sql := "sql",
              meta := { is_archived := false, is_private := false } }
    ∧ (create_query (demoStep 5) { is_archived := false, is_private := false }
        "n" "select 1" none false).2.1
      = [createReq "n" "select 1" none false, getReq 5]
    ∧ (create_query (demoStep 5) { is_archived := false, is_private := false }
        "n" "select 1" (some [QueryParameter.text "a" "b"]) false).1
      = .ok { query_id := 5, name := "q", sql := "sql",
              meta := { is_archived := false, is_private := false } }
    ∧ (create_query (demoStep 5) { is_archived := false, is_private := false }
        "n" "select 1" (some [QueryParameter.text "a" "b"]) false).2.1
      = [createReq "n" "select 1" (some [QueryParameter.text "a" "b"]) false,
         getReq 5]
    ∧ createReq "n" "select 1" none false
      = { method := .post, route := "/query/",
          params := some (.obj [("name", .str "n"), ("query_sql", .str "select 1"),
            ("is_private", .bool false)]) }
    ∧ createReq "n" "select 1" (some [QueryParameter.text "a" "b"]) false
      = { method := .post, route := "/query/",
          params := some (.obj [("name", .str "n"), ("query_sql", .str "select 1"),
            ("is_private", .bool false),
            ("parameters", .arr [QueryParameter.to_dict (QueryParameter.text "a" "b")])]) } :=
  create_query_posts_payload_then_reads (demoStep 5)
    { is_archived := false, is_private := false } "n" "select 1"
    [QueryParameter.text "a" "b"] false 5 5
    { query_id := 5, name := "q", sql := "sql",
      meta := { is_archived := false, is_private := false } }
    { query_id := 5, name := "q", sql := "sql",
      meta := { is_archived := false, is_private := false } }
    rfl rfl rfl rfl

theorem getKey_echo (i : Int) :
    JsonV.getKey (JsonV.obj [("query_id", JsonV.int i)]) "query_id"
      = .ok (.int i) := rfl

theorem pyInt_int (i : Int) : pyInt (.int i) = .ok i := rfl

/-- Running archive_query against the demo server sets the archived flag and
reports true. -/
theorem archive_on_demo (i : Int) (s : DemoState) :
    archive_query (demoStep i) s i
      = (.ok true, [archiveReq i, getReq i],
         { is_archived := true, is_private := s.is_private }) := by
  simp only [archive_query, get_query, demoStep_archive, demoStep_get,
    getKey_echo, pyInt_int, from_dict_queryJson, wrapKeyError]

/-- Running unarchive_query against the demo server clears the archived flag
and reports false. -/
theorem unarchive_on_demo (i : Int) (s : DemoState) :
    unarchive_query (demoStep i) s i
      = (.ok false, [unarchiveReq i, getReq i],
         { is_archived := false, is_private := s.is_private }) := by
  simp only [unarchive_query, get_query, demoStep_unarchive, demoStep_get,
    getKey_echo, pyInt_int, from_dict_queryJson, wrapKeyError]

/-- C8: against a server honoring the archive routes (the archive action
sets the flag, the unarchive action clears it, GET reports it),
archive_query then unarchive_query on the same id return true then false,
from any starting state. -/
theorem archive_then_unarchive_transitions (i : Int) (a p : Bool) :
    (archive_query (demoStep i) { is_archived := a, is_private := p } i).1
      = .ok true
    ∧ (unarchive_query (demoStep i)
        (archive_query (demoStep i) { is_archived := a, is_private := p } i).2.2 i).1
      = .ok false := by
  constructor
  · simp only [archive_on_demo]
  · simp only [archive_on_demo, unarchive_on_demo]

/-- C9: each mutating action re-fetches using the id echoed in the action
response's query_id field, not the caller-supplied id: the read request
names the echoed id j, and the flag archive_query returns is the one of the
query fetched at j. -/
theorem refetch_uses_echoed_id {S : Type}
    (srv : S → HTTPRequest → JsonV × S) (s : S) (i j : Int) (q : DuneQuery)
    (h1 : JsonV.getKey (srv s (archiveReq i)).1 "query_id" = .ok (.int j))
    (h2 : JsonV.getKey (srv s (unarchiveReq i)).1 "query_id" = .ok (.int j))
    (h3 : JsonV.getKey (srv s (privateReq i)).1 "query_id" = .ok (.int j))
    (h4 : JsonV.getKey (srv s (unprivateReq i)).1 "query_id" = .ok (.int j))
    (h5 : DuneQuery.from_dict (srv (srv s (archiveReq i)).2 (getReq j)).1 = .ok q) :
    (archive_query srv s i).2.1 = [archiveReq i, getReq j]
    ∧ (unarchive_query srv s i).2.1 = [unarchiveReq i, getReq j]
    ∧ (make_private srv s i).2.1 = [privateReq i, getReq j]
    ∧ (make_public srv s i).2.1 = [unprivateReq i, getReq j]
    ∧ (archive_query srv s i).1 = .ok q.meta.is_archived := by
  refine ⟨?_, ?_, ?_, ?_, ?_⟩ <;>
    simp only [archive_query, unarchive_query, make_private, make_public,
      get_query, h1, h2, h3, h4, h5, pyInt, wrapKeyError]

/-- C9 witness: the stubborn server echoes query id 5 whatever id the caller
names; called with id 2, every mutating action re-fetches query 5, and
archive_query reports query 5's flag. -/
theorem refetch_uses_echoed_id_witness :
    (archive_query stubbornSrv () 2).2.1 = [archiveReq 2, getReq 5]
    ∧ (unarchive_query stubbornSrv () 2).2.1 = [unarchiveReq 2, getReq 5]
    ∧ (make_private stubbornSrv () 2).2.1 = [privateReq 2, getReq 5]
    ∧ (make_public stubbornSrv () 2).2.1 = [unprivateReq 2, getReq 5]
    ∧ (archive_query stubbornSrv () 2).1 = .ok false :=
  refetch_uses_echoed_id stubbornSrv () 2 5
    { query_id := 5, name := "q", sql := "sql",
      meta := { is_archived := false, is_private := false } }
    rfl rfl rfl rfl rfl

theorem getKey_query_id_str (v : String) :
    JsonV.getKey (JsonV.obj [("query_id", JsonV.str v)]) "query_id"
      = .ok (.str v) := rfl

/-- C10 counterexample: with a response whose query_id is the non-numeric
string abc and the name field supplied, the claim predicts update_query
raises the int() conversion ValueError; the code instead raises
AttributeError at the params.query_parms read, before any request. -/
theorem update_query_bad_query_id_not_value_error :
    (update_query (constSrv (JsonV.obj [("query_id", JsonV.str "abc")])) () 1
        (some { name := some "n" })).1
      = .error (.attributeError "UpdateQueryParams" "query_parms")
    ∧ (update_query (constSrv (JsonV.obj [("query_id", JsonV.str "abc")])) () 1
        (some { name := some "n" })).1
      ≠ .error (.valueError "abc") :=
  ⟨rfl, by simp [update_query, constSrv]⟩

/-- C10 amended: for create_query, archive_query, unarchive_query,
make_private and make_public (update_query excluded, since it raises
AttributeError before issuing any request), a response whose query_id value
is a non-numeric string makes the call raise the int() conversion
ValueError unchanged, not wrapped in a DuneError. -/
theorem bad_query_id_propagates_value_error {S : Type}
    (srv : S → HTTPRequest → JsonV × S) (s : S) (i : Int)
    (name sql : String) (priv : Bool) (v : String)
    (h : ∀ s' r, (srv s' r).1 = JsonV.obj [("query_id", JsonV.str v)])
    (hv : pyIntOfString v = none) :
    (create_query srv s name sql none priv).1 = .error (.valueError v)
    ∧ (archive_query srv s i).1 = .error (.valueError v)
    ∧ (unarchive_query srv s i).1 = .error (.valueError v)
    ∧ (make_private srv s i).1 = .error (.valueError v)
    ∧ (make_public srv s i).1 = .error (.valueError v) := by
  refine ⟨?_, ?_, ?_, ?_, ?_⟩ <;>
    simp only [create_query, archive_query, unarchive_query, make_private,
      make_public, h, getKey_query_id_str, pyInt, hv, wrapKeyError]

/-- C10 witness: against a server that always replies with query_id abc,
each of the five operations raises ValueError on the int() conversion. -/
theorem bad_query_id_propagates_value_error_witness :
    (create_query (constSrv (JsonV.obj [("query_id", JsonV.str "abc")])) ()
        "n" "sql" none false).1 = .error (.valueError "abc")
    ∧ (archive_query (constSrv (JsonV.obj [("query_id", JsonV.str "abc")])) () 3).1
      = .error (.valueError "abc")
    ∧ (unarchive_query (constSrv (JsonV.obj [("query_id", JsonV.str "abc")])) () 3).1
      = .error (.valueError "abc")
    ∧ (make_private (constSrv (JsonV.obj [("query_id", JsonV.str "abc")])) () 3).1
      = .error (.valueError "abc")
    ∧ (make_public (constSrv (JsonV.obj [("query_id", JsonV.str "abc")])) () 3).1
      = .error (.valueError "abc") :=
  bad_query_id_propagates_value_error
    (constSrv (JsonV.obj [("query_id", JsonV.str "abc")])) () 3 "n" "sql" false
    "abc" (fun s' r => rfl) (by decide)
